import Mathlib

/-!
Shallow embedding of the `edgar-fetch` discovery-and-download pipeline
(`src/edgar_fetch/downloader/utils.py` and
`src/edgar_fetch/downloader/downloader.py`) in Lean 4, together with
theorems settling the specification claims.

Python strings are modelled as Lean `String`; the handful of Python string
operations used by the source (`s.split(c, 1)`, `s.replace(old, new, 2)`,
`s.replace(old, new)`, `s[-2:]`, `pathlib.Path(...).suffix`, lexicographic
`<`/`>`) are given explicit executable models below.  Network effects are
modelled by oracles (`Nat → ApiResponse` for search pages indexed by the
`from` offset, `String → Option String` for document GETs, `none` meaning
an HTTP error).  The filesystem is an explicit record threaded through the
download phase.

The module `constants.py` is imported by the source but absent from the
repository snapshot; its constants are modelled from the spec and marked
as such.  No claim below depends on the particular value of any of them.
-/

namespace EdgarFetch

/-! ## Python string-operation models -/

/-- Python `s.split(sep, 1)` for a one-character separator, on char lists:
splits at the first occurrence; `none` when the separator does not occur
(in which case Python's two-target unpacking raises `ValueError`). -/
def splitFirstChar (c : Char) : List Char → Option (List Char × List Char)
  | [] => none
  | x :: xs =>
    if x = c then some ([], xs)
    else (splitFirstChar c xs).map (fun p => (x :: p.1, p.2))

/-- Python `s.split(sep, 1)` on strings, one-character separator. -/
def pySplitOnce (s : String) (c : Char) : Option (String × String) :=
  (splitFirstChar c s.data).map (fun p => (⟨p.1⟩, ⟨p.2⟩))

/-- Python `s.replace(old, "", count)` for a one-character `old`:
removes at most `count` occurrences of the character, left to right. -/
def removeCharCount : List Char → Char → Nat → List Char
  | [], _, _ => []
  | x :: xs, _, 0 => x :: xs
  | x :: xs, c, n + 1 =>
    if x = c then removeCharCount xs c n
    else x :: removeCharCount xs c (n + 1)

/-- Python `s.replace(old, "", count)` on strings, one-character `old`. -/
def pyRemoveCount (s : String) (c : Char) (n : Nat) : String :=
  ⟨removeCharCount s.data c n⟩

/-- Python `s.replace(old, new)` (all occurrences, left to right,
non-overlapping), fuelled by the length of the subject string. -/
def replaceAllAux (pat rep : List Char) : Nat → List Char → List Char
  | 0, cs => cs
  | _ + 1, [] => []
  | fuel + 1, c :: cs =>
    if pat ≠ [] ∧ pat.isPrefixOf (c :: cs) then
      rep ++ replaceAllAux pat rep fuel ((c :: cs).drop pat.length)
    else
      c :: replaceAllAux pat rep fuel cs

/-- Python `s.replace(old, new)` on strings (`old` non-empty in all uses). -/
def pyReplace (s pat rep : String) : String :=
  ⟨replaceAllAux pat.data rep.data s.data.length s.data⟩

/-- Python `s[-n:]`: the last `n` characters (the whole string when
`s` is shorter than `n`). -/
def pySliceLast (s : String) (n : Nat) : String :=
  ⟨s.data.drop (s.data.length - n)⟩

/-- Python `s.split(sep)` for a one-character separator, on char lists:
splits at every occurrence, keeping empty segments (always non-empty). -/
def splitChar (c : Char) : List Char → List (List Char)
  | [] => [[]]
  | x :: xs =>
    if x = c then [] :: splitChar c xs
    else
      match splitChar c xs with
      | [] => [[x]]
      | g :: gs => (x :: g) :: gs

/-- Python `s.split(sep)` on strings, one-character separator. -/
def pySplitStr (s : String) (c : Char) : List String :=
  (splitChar c s.data).map (fun g => ⟨g⟩)

/-- The name component used by `pathlib.Path(...).suffix`: the part of the
path after the last `/`. -/
def pathNameOf (s : String) : String :=
  (pySplitStr s '/').getLastD ""

/-- Index of the last `.` in a char list, if any. -/
def lastDotIdx (cs : List Char) : Option Nat :=
  ((cs.enum.filter (fun p => p.2 = '.')).getLast?).map (fun p => p.1)

/-- Python `pathlib.Path(s).suffix`: the substring of the name from its last `.`,
empty when the last dot is the first or last character of the name. -/
def pathSuffix (s : String) : String :=
  let name := (pathNameOf s).data
  match lastDotIdx name with
  | none => ""
  | some i => if 0 < i ∧ i + 1 < name.length then ⟨name.drop i⟩ else ""

/-- Python lexicographic `<` on char lists (code-point order). -/
def pyLtChars : List Char → List Char → Bool
  | [], [] => false
  | [], _ :: _ => true
  | _ :: _, [] => false
  | a :: as, b :: bs =>
    if a.val < b.val then true
    else if b.val < a.val then false
    else pyLtChars as bs

/-- Python string `<` (lexicographic by code points). -/
def pyStrLt (a b : String) : Bool := pyLtChars a.data b.data

/-- Python string `>`. -/
def pyStrGt (a b : String) : Bool := pyStrLt b a

/-- Python `s.strip()`: drop leading and trailing whitespace. -/
def pyStrip (s : String) : String :=
  ⟨(((s.data.dropWhile Char.isWhitespace).reverse.dropWhile Char.isWhitespace).reverse)⟩

/-- Python `s.upper()` (ASCII case mapping suffices for tickers/CIKs). -/
def pyUpper (s : String) : String := ⟨s.data.map Char.toUpper⟩

/-! ## Constants (`constants.py`, absent from the snapshot) -/

/-- Modelled from the spec: the archive-fetch base URL (`archivesBase`);
no claim depends on its value. -/
def SEC_EDGAR_ARCHIVES_BASE_URL : String :=
  "https://www.sec.gov/Archives/edgar/data"

/-- Modelled from the spec: the fixed stem constant for the canonical local
filing-details filename; no claim depends on its value. -/
def FILING_DETAILS_FILENAME_STEM : String := "filing-details"

/-- Modelled from the spec: the fixed local filename for the full
submission document; no claim depends on its value. -/
def FILING_FULL_SUBMISSION_FILENAME : String := "full-submission.txt"

/-- Modelled from the spec: root save folder name for the disk layout. -/
def ROOT_SAVE_FOLDER_NAME : String := "sec-edgar-filings"

/-- Modelled from the spec: the fixed earliest-supported date, rendered in
the `YYYY-MM-DD` format used everywhere (service coverage begins in 2000,
per the source comment "SEC allows for filing searches from 2000 onwards"). -/
def DEFAULT_AFTER_DATE_STR : String := "2000-01-01"

/-- Modelled from the spec: the fixed supported filing-type set
(representative members; the claims only need membership to be decidable). -/
def SUPPORTED_FILINGS : List String :=
  ["10-K", "10-Q", "8-K", "4", "13F-HR", "S-1", "DEF 14A", "SC 13G"]

/-- Modelled from the source's `count_of_filings = sys.maxsize` default. -/
def SYS_MAXSIZE : Nat := 2 ^ 63 - 1

/-! ## Data model -/

/-- The `FilingMetadata` namedtuple from `utils.py`. -/
structure FilingMetadata where
  accession_number : String
  full_submission_url : String
  filing_details_url : String
  filing_details_filename : String
deriving DecidableEq, Repr

/-- A raw search hit, narrowed to the fields the pipeline reads:
`_id`, `_source.ciks`, `_source.file_type`. -/
structure Hit where
  id : String
  ciks : List String
  file_type : String
deriving DecidableEq, Repr

/-- Embeds `build_filing_metadata_from_hit` (`utils.py` lines 56-83).  `none`
models the `ValueError`/`IndexError` a malformed hit raises (no `:` in
`_id`, or an empty CIK list). -/
def build_filing_metadata_from_hit (hit : Hit) : Option FilingMetadata :=
  match pySplitOnce hit.id ':' with
  | none => none
  | some (accession_number, filing_details_filename) =>
    match hit.ciks.getLast? with
    | none => none
    | some cik =>
      let accession_number_no_dashes := pyRemoveCount accession_number '-' 2
      let submission_base_url :=
        SEC_EDGAR_ARCHIVES_BASE_URL ++ "/" ++ cik ++ "/" ++ accession_number_no_dashes
      let full_submission_url := submission_base_url ++ "/" ++ accession_number ++ ".txt"
      let filing_details_url := submission_base_url ++ "/" ++ filing_details_filename
      let filing_details_filename_extension :=
        pyReplace (pathSuffix filing_details_filename) "htm" "html"
      let filing_details_filename' :=
        FILING_DETAILS_FILENAME_STEM ++ filing_details_filename_extension
      some {
        accession_number := accession_number
        full_submission_url := full_submission_url
        filing_details_url := filing_details_url
        filing_details_filename := filing_details_filename' }

/-- Embeds `get_number_of_unique_filings` (`utils.py` lines 277-278): the size of
the Python set comprehension over accession numbers. -/
def get_number_of_unique_filings (filings : List FilingMetadata) : Nat :=
  ((filings.map FilingMetadata.accession_number).toFinset).card

/-! ## Search paginator (`get_filing_urls_to_download`, `utils.py` 86-160) -/

/-- The request payload built by `form_request_payload` (`utils.py` 36-53). -/
structure Payload where
  dateRange : String
  startdt : String
  enddt : String
  entityName : String
  forms : List String
  fromIndex : Nat
  q : String
deriving DecidableEq, Repr

/-- Embeds `form_request_payload` (`utils.py` lines 36-53). -/
def form_request_payload (ticker_or_cik : String) (filing_types : List String)
    (start_date end_date : String) (start_index : Nat) (query : String) : Payload :=
  { dateRange := "custom"
    startdt := start_date
    enddt := end_date
    entityName := ticker_or_cik
    forms := filing_types
    fromIndex := start_index
    q := query }

/-- The body of a search-API response, narrowed to what the source reads:
either a JSON document containing an `error` key (whose `root_cause[0].reason`
may or may not be extractable) or one with `hits.hits` and `query.size`. -/
inductive ApiBody where
  | errorBody (root_cause_reason : Option String)
  | results (hits : List Hit) (query_size : Nat)
deriving DecidableEq, Repr

/-- One HTTP response of the search API: a status code plus a body. -/
structure ApiResponse where
  status : Nat
  body : ApiBody
deriving DecidableEq, Repr

/-- How a run of the paginator ends. `err` models an uncaught exception
escaping `get_filing_urls_to_download` (the collected list is lost). -/
inductive FetchError where
  /-- Models the `requests.exceptions.HTTPError` raised by `res.raise_for_status()`. -/
  | httpError (status : Nat)
  /-- Models the `EdgarSearchApiError` raised for a body with an `error` key; carries
  the extracted root-cause reason (if any) and the request payload. -/
  | searchApi (reason : Option String) (payload : Payload)
  /-- Models the `ValueError`/`IndexError` from `build_filing_metadata_from_hit`. -/
  | malformedHit
deriving DecidableEq, Repr

/-- Result of the paginator: a normal return, an escaping exception, or
fuel exhaustion (the Python `while` loop would still be running). -/
inductive FetchResult where
  | ok (filings : List FilingMetadata)
  | err (e : FetchError)
  | outOfFuel
deriving DecidableEq, Repr

/-- Embeds `is_amend = hit_filing_type[-2:] == "/A"` (`utils.py` line 137). -/
def isAmendType (s : String) : Bool := pySliceLast s 2 == "/A"

/-- Python `requests.Response.raise_for_status()` raises exactly for 4xx/5xx. -/
def raisesForStatus (status : Nat) : Bool := 400 ≤ status ∧ status < 600

/-- The `for hit in query_hits` loop body (`utils.py` lines 134-150):
filters each hit, builds its metadata, appends, and returns early (flag
`true`) once the collected length equals `num_filings_to_download`.
`none` models a malformed hit raising out of the loop. -/
def processHits (filing_type : String) (include_amends : Bool) (n : Nat) :
    List Hit → List FilingMetadata → Option (List FilingMetadata × Bool)
  | [], acc => some (acc, false)
  | hit :: rest, acc =>
    let is_amend := isAmendType hit.file_type
    if !include_amends && is_amend then
      processHits filing_type include_amends n rest acc
    else if !is_amend && hit.file_type != filing_type then
      processHits filing_type include_amends n rest acc
    else
      match build_filing_metadata_from_hit hit with
      | none => none
      | some metadata =>
        let acc' := acc ++ [metadata]
        if acc'.length = n then some (acc', true)
        else processHits filing_type include_amends n rest acc'

/-- The `while len(filings_to_fetch) < num_filings_to_download` page loop
(`utils.py` lines 99-160), fuelled by a bound on the number of page
requests.  `pages` is the network oracle, indexed by the `from` offset the
request carries.  Besides the loop's outcome it returns the list of
offsets actually requested, in order (the rate-limit sleep is a pure
no-op in this model). -/
def fetchPagesLoop (pages : Nat → ApiResponse) (filing_type ticker_or_cik : String)
    (n : Nat) (after_date before_date : String) (include_amends : Bool) (query : String) :
    Nat → Nat → List FilingMetadata → FetchResult × List Nat
  | 0, _, _ => (.outOfFuel, [])
  | fuel + 1, start_index, filings_to_fetch =>
    if filings_to_fetch.length < n then
      let payload := form_request_payload ticker_or_cik [filing_type]
        after_date before_date start_index query
      let res := pages start_index
      if raisesForStatus res.status then
        (.err (.httpError res.status), [start_index])
      else
        match res.body with
        | .errorBody reason => (.err (.searchApi reason payload), [start_index])
        | .results query_hits query_size =>
          if query_hits.isEmpty then
            (.ok filings_to_fetch, [start_index])
          else
            match processHits filing_type include_amends n query_hits filings_to_fetch with
            | none => (.err .malformedHit, [start_index])
            | some (filings', true) => (.ok filings', [start_index])
            | some (filings', false) =>
              let next := fetchPagesLoop pages filing_type ticker_or_cik n
                after_date before_date include_amends query
                fuel (start_index + query_size) filings'
              (next.1, start_index :: next.2)
    else
      (.ok filings_to_fetch, [])

/-- Embeds `get_filing_urls_to_download` (`utils.py` lines 86-160): runs the page
loop from offset 0 with an empty accumulator. -/
def get_filing_urls_to_download (pages : Nat → ApiResponse)
    (filing_type ticker_or_cik : String) (num_filings_to_download : Nat)
    (after_date before_date : String) (include_amends : Bool) (query : String)
    (fuel : Nat) : FetchResult × List Nat :=
  fetchPagesLoop pages filing_type ticker_or_cik num_filings_to_download
    after_date before_date include_amends query fuel 0 []

/-! ## Download executor (`download_and_save_filing`, `download_filings`) -/

/-- The filesystem state threaded through the model: the set of existing
directories and the files written (path, content), with overwrite
semantics for `write_bytes`. -/
structure FS where
  dirs : List String
  files : List (String × String)
deriving DecidableEq, Repr

/-- Models `save_path.write_bytes` (overwrites an existing file at the path). -/
def FS.writeFile (fs : FS) (path content : String) : FS :=
  { fs with files := fs.files.filter (fun p => p.1 ≠ path) ++ [(path, content)] }

/-- Join string segments with `/` (inverse of a full split). -/
def joinSlash : List String → String
  | [] => ""
  | [x] => x
  | x :: xs => x ++ "/" ++ joinSlash xs

/-- Python `download_url.rsplit('/', 1)[0]`: everything before the last `/`
(the whole string when it contains no `/`). -/
def rsplitDirname (url : String) : String :=
  match pySplitStr url '/' with
  | [whole] => whole
  | parts => joinSlash parts.dropLast

/-- Embeds `download_and_save_filing` (`utils.py` lines 202-232).  `docs` is the
document-GET oracle (`none` models `raise_for_status` raising an
`HTTPError`); `resolve` models the external `resolve_relative_urls_in_filing`
collaborator as a function of the base URL and the fetched text.  Returns
`none` when the HTTP error is raised (no file written). -/
def download_and_save_filing (docs : String → Option String)
    (resolve : String → String → String)
    (download_folder ticker_or_cik accession_number filing_type
      download_url save_filename : String)
    (resolve_urls : Bool) (fs : FS) : Option FS :=
  match docs download_url with
  | none => none
  | some content =>
    let filing_text :=
      if resolve_urls && (pathSuffix save_filename == ".html") then
        resolve (rsplitDirname download_url ++ "/") content
      else content
    let save_path :=
      download_folder ++ "/" ++ ROOT_SAVE_FOLDER_NAME ++ "/" ++ ticker_or_cik
        ++ "/" ++ filing_type ++ "/" ++ accession_number ++ "/" ++ save_filename
    some (fs.writeFile save_path filing_text)

/-- The body of the `for filing in filings_to_fetch` loop in
`download_filings` (`utils.py` lines 243-274): the full-submission fetch
inside its `try/except HTTPError` (a failure only prints and skips), then,
when details are requested, the details fetch inside its own
`try/except HTTPError`. -/
def downloadOne (docs : String → Option String) (resolve : String → String → String)
    (download_folder ticker_or_cik filing_type : String)
    (include_filing_details : Bool) (filing : FilingMetadata) (fs : FS) : FS :=
  let fs1 :=
    match download_and_save_filing docs resolve download_folder ticker_or_cik
      filing.accession_number filing_type filing.full_submission_url
      FILING_FULL_SUBMISSION_FILENAME false fs with
    | none => fs
    | some fs' => fs'
  if include_filing_details then
    match download_and_save_filing docs resolve download_folder ticker_or_cik
      filing.accession_number filing_type filing.filing_details_url
      filing.filing_details_filename true fs1 with
    | none => fs1
    | some fs' => fs'
  else fs1

/-- Embeds `download_filings` (`utils.py` lines 235-274): processes every
descriptor in order; per-document HTTP errors never escape the loop. -/
def download_filings (docs : String → Option String)
    (resolve : String → String → String)
    (download_folder ticker_or_cik filing_type : String)
    (filings_to_fetch : List FilingMetadata)
    (include_filing_details : Bool) (fs : FS) : FS :=
  match filings_to_fetch with
  | [] => fs
  | filing :: rest =>
    download_filings docs resolve download_folder ticker_or_cik filing_type
      rest include_filing_details
      (downloadOne docs resolve download_folder ticker_or_cik filing_type
        include_filing_details filing fs)

/-! ## Date validation (`validate_date_format`, `utils.py` 190-199) -/

/-- A Python value whose static type is unknown: a `str` or anything else
(`isinstance` checks branch on this). -/
inductive PyValue where
  | str (s : String)
  | nonStr
deriving DecidableEq, Repr

/-- Gregorian leap year, as `datetime` computes it. -/
def leapYear (y : Nat) : Bool := (y % 4 == 0 && y % 100 != 0) || y % 400 == 0

/-- Days in a month, as validated by the `datetime` constructor. -/
def daysInMonth (y m : Nat) : Nat :=
  if m = 2 then (if leapYear y then 29 else 28)
  else if m = 4 ∨ m = 6 ∨ m = 9 ∨ m = 11 then 30
  else 31

/-- Numeric value of an all-digit string. -/
def digitsToNat (s : String) : Nat :=
  s.data.foldl (fun n c => n * 10 + (c.toNat - '0'.toNat)) 0

/-- CPython `_strptime` directive `%Y`: exactly four digits. -/
def yearFieldOk (ys : String) : Bool := ys.length = 4 && ys.data.all Char.isDigit

/-- CPython `_strptime` directive `%m`: `1[0-2]|0[1-9]|[1-9]`. -/
def monthFieldOk (ms : String) : Bool :=
  ms.data.all Char.isDigit &&
    ((ms.length = 1 && 1 ≤ digitsToNat ms) ||
     (ms.length = 2 && 1 ≤ digitsToNat ms && digitsToNat ms ≤ 12))

/-- CPython `_strptime` directive `%d`: `3[01]|[12]\d|0[1-9]|[1-9]`. -/
def dayFieldOk (ds : String) : Bool :=
  ds.data.all Char.isDigit &&
    ((ds.length = 1 && 1 ≤ digitsToNat ds) ||
     (ds.length = 2 && 1 ≤ digitsToNat ds && digitsToNat ds ≤ 31))

/-- Python `datetime.strptime(s, "%Y-%m-%d")` succeeds: the format regex matches
the whole string and the resulting (year, month, day) is a valid
`datetime` date (year ≥ 1, day within the month). -/
def strptimeOk (s : String) : Bool :=
  match pySplitStr s '-' with
  | [ys, ms, ds] =>
    yearFieldOk ys && monthFieldOk ms && dayFieldOk ds &&
      1 ≤ digitsToNat ys && digitsToNat ds ≤ daysInMonth (digitsToNat ys) (digitsToNat ms)
  | _ => false

/-- Outcome of `validate_date_format` (`utils.py` lines 190-199):
`TypeError` for a non-string, `ValueError` when `strptime` rejects. -/
inductive DateCheck where
  | ok (s : String)
  | typeError
  | valueError
deriving DecidableEq, Repr

/-- Embeds `validate_date_format` (`utils.py` lines 190-199). -/
def validate_date_format (v : PyValue) : DateCheck :=
  match v with
  | .nonStr => .typeError
  | .str s => if strptimeOk s then .ok s else .valueError

/-! ## Public entry point (`Fetcher.get_indexed`, `downloader.py` 152-225) -/

/-- Exceptions `get_indexed` can raise, plus fuel exhaustion of the model. -/
inductive GetIndexedError where
  /-- Python `ValueError` for `count_of_filings < 1`. -/
  | invalidCount
  /-- Python `TypeError` from `validate_date_format` (non-string date). -/
  | dateTypeError
  /-- Python `ValueError` from `validate_date_format` (malformed date string). -/
  | invalidDateFormat
  /-- Python `ValueError` for `after` before the earliest-supported date. -/
  | dateOutOfRange
  /-- Python `ValueError` for `after > before`. -/
  | invalidDateRange
  /-- Python `ValueError` for an unsupported filing type. -/
  | unsupportedFilingType
  /-- Python `TypeError` for a non-string query. -/
  | queryTypeError
  /-- An exception escaping `get_filing_urls_to_download`. -/
  | fetch (e : FetchError)
  /-- The page loop's fuel ran out (the Python loop would still be going). -/
  | outOfFuel
deriving DecidableEq, Repr

/-- Whether a `GetIndexedError` is one of the argument-validation errors
raised before any network activity. -/
def GetIndexedError.isValidationError : GetIndexedError → Bool
  | .invalidCount | .dateTypeError | .invalidDateFormat | .dateOutOfRange
  | .invalidDateRange | .unsupportedFilingType | .queryTypeError => true
  | .fetch _ | .outOfFuel => false

/-- The observable outcome of one `get_indexed` call: the final filesystem
state, the search-page offsets requested (network activity), and either
the returned unique-filing count or the exception raised. -/
structure GetIndexedOutcome where
  fs : FS
  page_requests : List Nat
  result : Except GetIndexedError Nat
deriving Repr

/-- Embeds `Fetcher.get_indexed` (`downloader.py` lines 152-225), with the
network modelled by the `pages` and `docs` oracles, `resolve` the external
HTML collaborator, and `today_str` the `DEFAULT_BEFORE_DATE` (today)
rendered in `YYYY-MM-DD`.  Mirrors the source's order: upper-case the
ticker, create the destination directory, then validate count, `after`
(format, then range), `before` (format), date order, filing type and
query type, and only then run discovery and the downloads. -/
def get_indexed (pages : Nat → ApiResponse) (docs : String → Option String)
    (resolve : String → String → String) (today_str : String) (fuel : Nat)
    (fs : FS) (destination filing ticker_or_cik : String)
    (count_of_filings : Option Int) (after before : Option PyValue)
    (are_amends_included has_download_details : Bool)
    (query : PyValue) : GetIndexedOutcome :=
  let ticker := pyUpper (pyStrip ticker_or_cik)
  let fs1 := if destination ∈ fs.dirs then fs
             else { fs with dirs := destination :: fs.dirs }
  let countR : Except GetIndexedError Nat :=
    match count_of_filings with
    | none => .ok SYS_MAXSIZE
    | some c => if c < 1 then .error .invalidCount else .ok c.toNat
  match countR with
  | .error e => ⟨fs1, [], .error e⟩
  | .ok n =>
    let afterR : Except GetIndexedError String :=
      match after with
      | none => .ok DEFAULT_AFTER_DATE_STR
      | some v =>
        match validate_date_format v with
        | .typeError => .error .dateTypeError
        | .valueError => .error .invalidDateFormat
        | .ok a =>
          if pyStrLt a DEFAULT_AFTER_DATE_STR then .error .dateOutOfRange
          else .ok a
    match afterR with
    | .error e => ⟨fs1, [], .error e⟩
    | .ok afterStr =>
      let beforeR : Except GetIndexedError String :=
        match before with
        | none => .ok today_str
        | some v =>
          match validate_date_format v with
          | .typeError => .error .dateTypeError
          | .valueError => .error .invalidDateFormat
          | .ok b => .ok b
      match beforeR with
      | .error e => ⟨fs1, [], .error e⟩
      | .ok beforeStr =>
        if pyStrGt afterStr beforeStr then ⟨fs1, [], .error .invalidDateRange⟩
        else if !(SUPPORTED_FILINGS.contains filing) then
          ⟨fs1, [], .error .unsupportedFilingType⟩
        else
          match query with
          | .nonStr => ⟨fs1, [], .error .queryTypeError⟩
          | .str q =>
            let fetched := get_filing_urls_to_download pages filing ticker n
              afterStr beforeStr are_amends_included q fuel
            match fetched.1 with
            | .ok filings_to_fetch =>
              let fs2 := download_filings docs resolve destination ticker filing
                filings_to_fetch has_download_details fs1
              ⟨fs2, fetched.2, .ok (get_number_of_unique_filings filings_to_fetch)⟩
            | .err e => ⟨fs1, fetched.2, .error (.fetch e)⟩
            | .outOfFuel => ⟨fs1, fetched.2, .error .outOfFuel⟩

/-! ## Helper lemmas -/

/-- The function `splitFirstChar` splits at the first occurrence of the separator. -/
theorem splitFirstChar_spec (c : Char) :
    ∀ (cs a b : List Char), splitFirstChar c cs = some (a, b) →
      cs = a ++ c :: b ∧ c ∉ a := by
  intro cs
  induction cs with
  | nil => intro a b h; simp [splitFirstChar] at h
  | cons x xs ih =>
    intro a b h
    by_cases hx : x = c
    · subst hx
      simp [splitFirstChar] at h
      obtain ⟨ha, hb⟩ := h
      subst ha; subst hb
      simp
    · simp only [splitFirstChar, if_neg hx] at h
      cases heq : splitFirstChar c xs with
      | none => rw [heq] at h; simp at h
      | some p =>
        rw [heq] at h
        obtain ⟨a', b'⟩ := p
        simp only [Option.map_some', Option.some.injEq, Prod.mk.injEq] at h
        obtain ⟨ha, hb⟩ := h
        have hrec := ih a' b' heq
        subst ha; subst hb
        refine ⟨by rw [hrec.1]; simp, ?_⟩
        simp only [List.mem_cons, not_or]
        exact ⟨fun hc => hx hc.symm, hrec.2⟩

/-- Taking the last `t.length` elements yields `t` exactly when `t` is a
suffix. -/
theorem drop_length_sub_eq_iff_suffix {α : Type} (l t : List α) :
    l.drop (l.length - t.length) = t ↔ t <:+ l := by
  constructor
  · intro h
    exact h ▸ List.drop_suffix _ _
  · rintro ⟨u, rfl⟩
    simp [Nat.add_sub_cancel]

/-- The `download_filings` model never changes the set of directories. -/
theorem download_filings_dirs (docs : String → Option String)
    (resolve : String → String → String) (folder ticker ft : String) :
    ∀ (filings : List FilingMetadata) (details : Bool) (fs : FS),
      (download_filings docs resolve folder ticker ft filings details fs).dirs
        = fs.dirs := by
  intro filings
  induction filings with
  | nil => intro details fs; rfl
  | cons filing rest ih =>
    intro details fs
    rw [download_filings, ih]
    unfold downloadOne
    cases h1 : download_and_save_filing docs resolve folder ticker
        filing.accession_number ft filing.full_submission_url
        FILING_FULL_SUBMISSION_FILENAME false fs with
    | none =>
      cases details <;> simp only [Bool.false_eq_true, if_neg, if_pos]
      · rfl
      · cases h2 : download_and_save_filing docs resolve folder ticker
            filing.accession_number ft filing.filing_details_url
            filing.filing_details_filename true fs with
        | none => rfl
        | some fs' =>
          unfold download_and_save_filing at h2
          cases hd : docs filing.filing_details_url with
          | none => rw [hd] at h2; simp at h2
          | some content =>
            rw [hd] at h2
            simp only [Option.some.injEq] at h2
            rw [← h2]; rfl
    | some fs1 =>
      have hdirs1 : fs1.dirs = fs.dirs := by
        unfold download_and_save_filing at h1
        cases hd : docs filing.full_submission_url with
        | none => rw [hd] at h1; simp at h1
        | some content =>
          rw [hd] at h1
          simp only [Option.some.injEq] at h1
          rw [← h1]; rfl
      cases details <;> simp only [Bool.false_eq_true, if_neg, if_pos]
      · exact hdirs1
      · cases h2 : download_and_save_filing docs resolve folder ticker
            filing.accession_number ft filing.filing_details_url
            filing.filing_details_filename true fs1 with
        | none => exact hdirs1
        | some fs' =>
          unfold download_and_save_filing at h2
          cases hd : docs filing.filing_details_url with
          | none => rw [hd] at h2; simp at h2
          | some content =>
            rw [hd] at h2
            simp only [Option.some.injEq] at h2
            rw [← h2, ← hdirs1]; rfl

/-! ## Claim theorems -/

/-- C2: for every well-formed hit, the normalizer splits the composite id
at the first `:` into accession number and details filename, takes the
last entry of the CIK list as the filer identifier, and produces
`full_submission_url = archivesBase/{cik}/{accessionNoDashes}/{accessionNumber}.txt`
and `filing_details_url = archivesBase/{cik}/{accessionNoDashes}/{detailsFilename}`. -/
theorem normalizer_builds_canonical_urls (hit : Hit)
    (accession fname cik : String)
    (hsplit : pySplitOnce hit.id ':' = some (accession, fname))
    (hcik : hit.ciks.getLast? = some cik) :
    hit.id = accession ++ ":" ++ fname ∧ ':' ∉ accession.data ∧
    build_filing_metadata_from_hit hit = some {
      accession_number := accession
      full_submission_url := SEC_EDGAR_ARCHIVES_BASE_URL ++ "/" ++ cik ++ "/"
        ++ pyRemoveCount accession '-' 2 ++ "/" ++ accession ++ ".txt"
      filing_details_url := SEC_EDGAR_ARCHIVES_BASE_URL ++ "/" ++ cik ++ "/"
        ++ pyRemoveCount accession '-' 2 ++ "/" ++ fname
      filing_details_filename := FILING_DETAILS_FILENAME_STEM
        ++ pyReplace (pathSuffix fname) "htm" "html" } := by
  refine ⟨?_, ?_, ?_⟩
  · unfold pySplitOnce at hsplit
    cases heq : splitFirstChar ':' hit.id.data with
    | none => rw [heq] at hsplit; simp at hsplit
    | some p =>
      rw [heq] at hsplit
      obtain ⟨a, b⟩ := p
      simp only [Option.map_some', Option.some.injEq, Prod.mk.injEq] at hsplit
      obtain ⟨ha, hb⟩ := hsplit
      have hdata := (splitFirstChar_spec ':' hit.id.data a b heq).1
      apply String.ext
      rw [hdata, ← ha, ← hb]
      simp [String.data_append]
  · unfold pySplitOnce at hsplit
    cases heq : splitFirstChar ':' hit.id.data with
    | none => rw [heq] at hsplit; simp at hsplit
    | some p =>
      rw [heq] at hsplit
      obtain ⟨a, b⟩ := p
      simp only [Option.map_some', Option.some.injEq, Prod.mk.injEq] at hsplit
      obtain ⟨ha, hb⟩ := hsplit
      have hmem := (splitFirstChar_spec ':' hit.id.data a b heq).2
      rw [← ha]
      exact hmem
  · unfold build_filing_metadata_from_hit
    rw [hsplit, hcik]

/-- Witness for C2 at a concrete hit. -/
theorem normalizer_builds_canonical_urls_witness :
    "0001193125-20-012345:ex99_1.htm" = "0001193125-20-012345" ++ ":" ++ "ex99_1.htm" ∧
    ':' ∉ ("0001193125-20-012345" : String).data ∧
    build_filing_metadata_from_hit
        ⟨"0001193125-20-012345:ex99_1.htm", ["1234", "0000320193"], "8-K"⟩
      = some {
          accession_number := "0001193125-20-012345"
          full_submission_url := SEC_EDGAR_ARCHIVES_BASE_URL ++ "/" ++ "0000320193" ++ "/"
            ++ pyRemoveCount "0001193125-20-012345" '-' 2 ++ "/" ++ "0001193125-20-012345" ++ ".txt"
          filing_details_url := SEC_EDGAR_ARCHIVES_BASE_URL ++ "/" ++ "0000320193" ++ "/"
            ++ pyRemoveCount "0001193125-20-012345" '-' 2 ++ "/" ++ "ex99_1.htm"
          filing_details_filename := FILING_DETAILS_FILENAME_STEM
            ++ pyReplace (pathSuffix "ex99_1.htm") "htm" "html" } :=
  normalizer_builds_canonical_urls
    ⟨"0001193125-20-012345:ex99_1.htm", ["1234", "0000320193"], "8-K"⟩
    "0001193125-20-012345" "ex99_1.htm" "0000320193" (by decide) (by decide)

/-- C3 (code bug): the local filename is the fixed stem plus the details
filename's extension with the substring `htm` replaced by `html`; for a
details filename ending in `.htm` this yields `.html` as the claim says,
but for one already ending in `.html` the substring replacement produces
`.htmll`, not `.html`. -/
theorem details_filename_extension_behavior :
    (build_filing_metadata_from_hit
        ⟨"0001193125-20-012345:ex99_1.htm", ["0000320193"], "8-K"⟩).map
        FilingMetadata.filing_details_filename
      = some (FILING_DETAILS_FILENAME_STEM ++ ".html")
    ∧ (build_filing_metadata_from_hit
        ⟨"0001193125-20-012345:primary.html", ["0000320193"], "8-K"⟩).map
        FilingMetadata.filing_details_filename
      = some (FILING_DETAILS_FILENAME_STEM ++ ".htmll") := by
  constructor <;> rfl

/-- C4: a hit is an amendment iff its file type ends with `/A`; with
amendments excluded an amendment hit is skipped and not counted; a
non-amendment hit whose file type differs from the requested type is
skipped; any other hit is normalized and appended (with the early return
once the cap is hit). -/
theorem hit_filtering_policy (filing_type : String) (n : Nat)
    (hit : Hit) (rest : List Hit) (acc : List FilingMetadata) :
    (∀ s : String, isAmendType s = true ↔ "/A".data <:+ s.data)
    ∧ (isAmendType hit.file_type = true →
        processHits filing_type false n (hit :: rest) acc
          = processHits filing_type false n rest acc)
    ∧ (∀ ia : Bool, isAmendType hit.file_type = false →
        hit.file_type ≠ filing_type →
        processHits filing_type ia n (hit :: rest) acc
          = processHits filing_type ia n rest acc)
    ∧ (∀ (ia : Bool) (md : FilingMetadata),
        (!ia && isAmendType hit.file_type) = false →
        (!(isAmendType hit.file_type) && (hit.file_type != filing_type)) = false →
        build_filing_metadata_from_hit hit = some md →
        processHits filing_type ia n (hit :: rest) acc
          = if (acc ++ [md]).length = n then some (acc ++ [md], true)
            else processHits filing_type ia n rest (acc ++ [md])) := by
  refine ⟨?_, ?_, ?_, ?_⟩
  · intro s
    have hdata : ("/A" : String).data = ['/', 'A'] := rfl
    constructor
    · intro h
      have : pySliceLast s 2 = "/A" := by
        simpa [isAmendType] using h
      have hd : s.data.drop (s.data.length - 2) = ['/', 'A'] := by
        have := congrArg String.data this
        simpa [pySliceLast] using this
      rw [hdata]
      exact (drop_length_sub_eq_iff_suffix s.data ['/', 'A']).mp hd
    · intro h
      rw [hdata] at h
      have hd : s.data.drop (s.data.length - 2) = ['/', 'A'] := by
        simpa using (drop_length_sub_eq_iff_suffix s.data ['/', 'A']).mpr h
      unfold isAmendType pySliceLast
      rw [hd]
      rfl
  · intro hamend
    simp [processHits, hamend]
  · intro ia hnot hne
    simp [processHits, hnot, hne]
  · intro ia md h1 h2 hbuild
    simp [processHits, h1, h2, hbuild]

/-- Witness for C4 at concrete hits. -/
theorem hit_filtering_policy_witness :
    (isAmendType "10-K/A" = true ↔ "/A".data <:+ ("10-K/A" : String).data)
    ∧ processHits "10-K" false 5 [⟨"a:b.htm", ["1"], "10-K/A"⟩] []
        = some ([], false)
    ∧ processHits "8-K" false 5 [⟨"a:b.htm", ["1"], "10-K"⟩] []
        = some ([], false)
    ∧ processHits "8-K" false 1 [⟨"a:b.htm", ["1"], "8-K"⟩] []
        = some ([⟨"a",
            SEC_EDGAR_ARCHIVES_BASE_URL ++ "/1/a/a.txt",
            SEC_EDGAR_ARCHIVES_BASE_URL ++ "/1/a/b.htm",
            FILING_DETAILS_FILENAME_STEM ++ ".html"⟩], true) := by
  have h1 := hit_filtering_policy "10-K" 5 ⟨"a:b.htm", ["1"], "10-K/A"⟩ [] []
  have h2 := hit_filtering_policy "8-K" 5 ⟨"a:b.htm", ["1"], "10-K"⟩ [] []
  have h3 := hit_filtering_policy "8-K" 1 ⟨"a:b.htm", ["1"], "8-K"⟩ [] []
  refine ⟨h1.1 "10-K/A", ?_, ?_, ?_⟩
  · rw [h1.2.1 (by decide)]; rfl
  · rw [h2.2.2.1 false (by decide) (by decide)]; rfl
  · rw [h3.2.2.2 false
      ⟨"a", SEC_EDGAR_ARCHIVES_BASE_URL ++ "/1/a/a.txt",
        SEC_EDGAR_ARCHIVES_BASE_URL ++ "/1/a/b.htm",
        FILING_DETAILS_FILENAME_STEM ++ ".html"⟩
      (by decide) (by decide) (by decide)]
    rfl

/-- C9: with amendments included, an amendment hit is emitted regardless
of whether its base type matches the requested filing type — the
exact-type filter applies only to non-amendment hits. -/
theorem amendment_bypasses_type_filter (filing_type : String) (n : Nat)
    (hit : Hit) (rest : List Hit) (acc : List FilingMetadata)
    (md : FilingMetadata)
    (hamend : isAmendType hit.file_type = true)
    (hbuild : build_filing_metadata_from_hit hit = some md) :
    processHits filing_type true n (hit :: rest) acc
      = if (acc ++ [md]).length = n then some (acc ++ [md], true)
        else processHits filing_type true n rest (acc ++ [md]) := by
  simp [processHits, hamend, hbuild]

/-- Witness for C9: a `10-K/A` hit is included in a search for `8-K`. -/
theorem amendment_bypasses_type_filter_witness :
    processHits "8-K" true 1 [⟨"a:b.htm", ["1"], "10-K/A"⟩] []
      = some ([⟨"a",
          SEC_EDGAR_ARCHIVES_BASE_URL ++ "/1/a/a.txt",
          SEC_EDGAR_ARCHIVES_BASE_URL ++ "/1/a/b.htm",
          FILING_DETAILS_FILENAME_STEM ++ ".html"⟩], true) := by
  rw [amendment_bypasses_type_filter "8-K" 1 ⟨"a:b.htm", ["1"], "10-K/A"⟩ [] []
    ⟨"a", SEC_EDGAR_ARCHIVES_BASE_URL ++ "/1/a/a.txt",
      SEC_EDGAR_ARCHIVES_BASE_URL ++ "/1/a/b.htm",
      FILING_DETAILS_FILENAME_STEM ++ ".html"⟩
    (by decide) (by decide)]
  rfl

/-- C5: while below the cap, (i) an empty hit list terminates the loop
with the descriptors collected so far, issuing no further page requests;
(ii) if processing the current page reaches the cap, the loop returns
immediately with exactly that one request issued; (iii) within a page,
once the appended descriptor reaches the cap the remaining hits of the
page are never examined (the result is the same for every `rest`). -/
theorem pagination_stops_at_cap_or_exhaustion
    (pages : Nat → ApiResponse) (filing_type ticker : String) (n : Nat)
    (a b : String) (ia : Bool) (q : String) (fuel start : Nat)
    (acc : List FilingMetadata)
    (hlt : acc.length < n) :
    (raisesForStatus (pages start).status = false →
      ∀ qsize : Nat, (pages start).body = .results [] qsize →
      fetchPagesLoop pages filing_type ticker n a b ia q (fuel + 1) start acc
        = (.ok acc, [start]))
    ∧ (raisesForStatus (pages start).status = false →
      ∀ (hits : List Hit) (qsize : Nat) (acc' : List FilingMetadata),
      (pages start).body = .results hits qsize →
      processHits filing_type ia n hits acc = some (acc', true) →
      fetchPagesLoop pages filing_type ticker n a b ia q (fuel + 1) start acc
        = (.ok acc', [start]))
    ∧ (∀ (hit : Hit) (rest : List Hit) (md : FilingMetadata),
      (!ia && isAmendType hit.file_type) = false →
      (!(isAmendType hit.file_type) && (hit.file_type != filing_type)) = false →
      build_filing_metadata_from_hit hit = some md →
      (acc ++ [md]).length = n →
      processHits filing_type ia n (hit :: rest) acc = some (acc ++ [md], true)) := by
  refine ⟨?_, ?_, ?_⟩
  · intro hstatus qsize hbody
    simp [fetchPagesLoop, hlt, hstatus, hbody]
  · intro hstatus hits qsize acc' hbody hproc
    have hne : hits ≠ [] := by
      intro hnil
      rw [hnil] at hproc
      simp [processHits] at hproc
    simp [fetchPagesLoop, hlt, hstatus, hbody, hne, hproc]
  · intro hit rest md h1 h2 hbuild hlen
    simp [processHits, h1, h2, hbuild, hlen]

/-- Witness for C5: an empty first page returns the empty collection after
one request; a cap of 1 reached on the first hit of a two-hit page returns
immediately after one request. -/
theorem pagination_stops_at_cap_or_exhaustion_witness :
    fetchPagesLoop (fun _ => ⟨200, .results [] 100⟩) "8-K" "AAPL" 2
        "2019-01-01" "2020-01-01" false "" 5 0 []
      = (.ok [], [0])
    ∧ fetchPagesLoop
        (fun _ => ⟨200, .results [⟨"a:b.htm", ["1"], "8-K"⟩, ⟨"c:d.htm", ["1"], "8-K"⟩] 100⟩)
        "8-K" "AAPL" 1 "2019-01-01" "2020-01-01" false "" 5 0 []
      = (.ok [⟨"a", SEC_EDGAR_ARCHIVES_BASE_URL ++ "/1/a/a.txt",
            SEC_EDGAR_ARCHIVES_BASE_URL ++ "/1/a/b.htm",
            FILING_DETAILS_FILENAME_STEM ++ ".html"⟩], [0]) := by
  constructor
  · exact (pagination_stops_at_cap_or_exhaustion (fun _ => ⟨200, .results [] 100⟩)
      "8-K" "AAPL" 2 "2019-01-01" "2020-01-01" false "" 4 0 [] (by decide)).1
      (by decide) 100 (by decide)
  · exact (pagination_stops_at_cap_or_exhaustion
      (fun _ => ⟨200, .results [⟨"a:b.htm", ["1"], "8-K"⟩, ⟨"c:d.htm", ["1"], "8-K"⟩] 100⟩)
      "8-K" "AAPL" 1 "2019-01-01" "2020-01-01" false "" 4 0 [] (by decide)).2.1
      (by decide) [⟨"a:b.htm", ["1"], "8-K"⟩, ⟨"c:d.htm", ["1"], "8-K"⟩] 100
      [⟨"a", SEC_EDGAR_ARCHIVES_BASE_URL ++ "/1/a/a.txt",
        SEC_EDGAR_ARCHIVES_BASE_URL ++ "/1/a/b.htm",
        FILING_DETAILS_FILENAME_STEM ++ ".html"⟩]
      (by decide) (by decide)

/-- C6 counterexample: a concrete 500 response makes discovery fail with
`requests.HTTPError` (carrying the status but not the request payload),
not `EdgarSearchApiError`; and a concrete 304 response — also non-2xx —
does not make discovery fail at all (`raise_for_status` only raises for
4xx/5xx), so the claim as stated is false. -/
theorem non_2xx_search_status_counterexample :
    get_filing_urls_to_download (fun _ => ⟨500, .results [] 100⟩) "8-K" "AAPL" 2
        "2019-01-01" "2020-01-01" false "" 5
      = (.err (.httpError 500), [0])
    ∧ get_filing_urls_to_download (fun _ => ⟨304, .results [] 100⟩) "8-K" "AAPL" 2
        "2019-01-01" "2020-01-01" false "" 5
      = (.ok [], [0]) := by
  constructor <;> rfl

/-- C6 (amended): while below the cap, (i) a search-page request answered
with a 4xx/5xx status makes discovery fail with the `requests.HTTPError`
raised by `raise_for_status`, carrying the status; (ii) a request whose
response passes `raise_for_status` but whose JSON body contains an
`error` key makes discovery fail with `EdgarSearchApiError` carrying the
extracted reason and the request payload; in both cases whatever
descriptors were already collected are discarded (no partial result list
is returned). -/
theorem http_error_aborts_discovery
    (pages : Nat → ApiResponse) (filing_type ticker : String) (n : Nat)
    (a b : String) (ia : Bool) (q : String) (fuel start : Nat)
    (acc : List FilingMetadata)
    (hlt : acc.length < n) :
    (raisesForStatus (pages start).status = true →
      fetchPagesLoop pages filing_type ticker n a b ia q (fuel + 1) start acc
        = (.err (.httpError (pages start).status), [start]))
    ∧ (∀ reason : Option String,
      raisesForStatus (pages start).status = false →
      (pages start).body = .errorBody reason →
      fetchPagesLoop pages filing_type ticker n a b ia q (fuel + 1) start acc
        = (.err (.searchApi reason
            (form_request_payload ticker [filing_type] a b start q)), [start])) := by
  constructor
  · intro hstatus
    simp [fetchPagesLoop, hlt, hstatus]
  · intro reason hstatus hbody
    simp [fetchPagesLoop, hlt, hstatus, hbody]

/-- Witness for the amended C6: a 503 on the page at offset 100 discards
the descriptor already collected from the previous page, and a 304
response whose body carries an `error` key fails with
`EdgarSearchApiError` carrying the reason and the request payload. -/
theorem http_error_aborts_discovery_witness :
    fetchPagesLoop
        (fun i => if i = 0
          then ⟨200, .results [⟨"a:b.htm", ["1"], "8-K"⟩] 100⟩
          else ⟨503, .results [] 100⟩)
        "8-K" "AAPL" 2 "2019-01-01" "2020-01-01" false "" (3 + 1) 100
        [⟨"a", SEC_EDGAR_ARCHIVES_BASE_URL ++ "/1/a/a.txt",
          SEC_EDGAR_ARCHIVES_BASE_URL ++ "/1/a/b.htm",
          FILING_DETAILS_FILENAME_STEM ++ ".html"⟩]
      = (.err (.httpError 503), [100])
    ∧ fetchPagesLoop (fun _ => ⟨304, .errorBody (some "oops")⟩)
        "8-K" "AAPL" 2 "2019-01-01" "2020-01-01" false "" (3 + 1) 0 []
      = (.err (.searchApi (some "oops")
          (form_request_payload "AAPL" ["8-K"] "2019-01-01" "2020-01-01" 0 "")), [0]) := by
  constructor
  · exact ((http_error_aborts_discovery
      (fun i => if i = 0
        then ⟨200, .results [⟨"a:b.htm", ["1"], "8-K"⟩] 100⟩
        else ⟨503, .results [] 100⟩)
      "8-K" "AAPL" 2 "2019-01-01" "2020-01-01" false "" 3 100
      [⟨"a", SEC_EDGAR_ARCHIVES_BASE_URL ++ "/1/a/a.txt",
        SEC_EDGAR_ARCHIVES_BASE_URL ++ "/1/a/b.htm",
        FILING_DETAILS_FILENAME_STEM ++ ".html"⟩]
      (by decide)).1 (by decide)).trans (by decide)
  · exact (http_error_aborts_discovery (fun _ => ⟨304, .errorBody (some "oops")⟩)
      "8-K" "AAPL" 2 "2019-01-01" "2020-01-01" false "" 3 0 []
      (by decide)).2 (some "oops") (by decide) (by decide)

/-- C7: per-document HTTP errors are isolated: (i) the batch loop always
continues with the next descriptor; (ii) if the submission fetch fails the
details document is still attempted (and written on success); (iii) if
the details fetch fails the submission document already written remains. -/
theorem per_document_http_errors_isolated
    (docs : String → Option String) (resolve : String → String → String)
    (folder ticker ft : String) (filing : FilingMetadata)
    (rest : List FilingMetadata) (fs : FS) :
    (∀ details : Bool,
      download_filings docs resolve folder ticker ft (filing :: rest) details fs
        = download_filings docs resolve folder ticker ft rest details
            (downloadOne docs resolve folder ticker ft details filing fs))
    ∧ (docs filing.full_submission_url = none →
       ∀ content : String, docs filing.filing_details_url = some content →
       downloadOne docs resolve folder ticker ft true filing fs
         = fs.writeFile
             (folder ++ "/" ++ ROOT_SAVE_FOLDER_NAME ++ "/" ++ ticker ++ "/" ++ ft
               ++ "/" ++ filing.accession_number ++ "/" ++ filing.filing_details_filename)
             (if pathSuffix filing.filing_details_filename == ".html"
               then resolve (rsplitDirname filing.filing_details_url ++ "/") content
               else content))
    ∧ (∀ content : String, docs filing.full_submission_url = some content →
       docs filing.filing_details_url = none →
       downloadOne docs resolve folder ticker ft true filing fs
         = fs.writeFile
             (folder ++ "/" ++ ROOT_SAVE_FOLDER_NAME ++ "/" ++ ticker ++ "/" ++ ft
               ++ "/" ++ filing.accession_number ++ "/" ++ FILING_FULL_SUBMISSION_FILENAME)
             content) := by
  refine ⟨fun details => rfl, ?_, ?_⟩
  · intro hsub content hdet
    simp [downloadOne, download_and_save_filing, hsub, hdet]
  · intro content hsub hdet
    simp [downloadOne, download_and_save_filing, hsub, hdet]

/-- Witness for C7 at a concrete descriptor and oracles. -/
theorem per_document_http_errors_isolated_witness :
    downloadOne (fun u => if u == "detU" then some "BODY" else none) (fun _ c => c)
        "f" "T" "8-K" true ⟨"acc", "subU", "detU", "filing-details.html"⟩ ⟨[], []⟩
      = ⟨[], [("f/" ++ ROOT_SAVE_FOLDER_NAME ++ "/T/8-K/acc/filing-details.html", "BODY")]⟩
    ∧ downloadOne (fun u => if u == "subU" then some "SUB" else none) (fun _ c => c)
        "f" "T" "8-K" true ⟨"acc", "subU", "detU", "filing-details.html"⟩ ⟨[], []⟩
      = ⟨[], [("f/" ++ ROOT_SAVE_FOLDER_NAME ++ "/T/8-K/acc/"
            ++ FILING_FULL_SUBMISSION_FILENAME, "SUB")]⟩ := by
  constructor
  · exact ((per_document_http_errors_isolated
      (fun u => if u == "detU" then some "BODY" else none) (fun _ c => c)
      "f" "T" "8-K" ⟨"acc", "subU", "detU", "filing-details.html"⟩ [] ⟨[], []⟩).2.1
      (by decide) "BODY" (by decide)).trans (by decide)
  · exact ((per_document_http_errors_isolated
      (fun u => if u == "subU" then some "SUB" else none) (fun _ c => c)
      "f" "T" "8-K" ⟨"acc", "subU", "detU", "filing-details.html"⟩ [] ⟨[], []⟩).2.2
      "SUB" (by decide) (by decide)).trans (by decide)

/-- C1: when validation passes and discovery emits the descriptor list,
`get_indexed` returns the cardinality of the set of distinct accession
numbers across the list (not the raw length); in particular two
descriptors sharing an accession number under different filenames are
counted once. -/
theorem get_indexed_counts_distinct_accessions
    (pages : Nat → ApiResponse) (docs : String → Option String)
    (resolve : String → String → String) (today : String) (fuel : Nat)
    (fs : FS) (dest filing ticker : String) (c : Int)
    (a b : String) (amends details : Bool) (q : String)
    (l : List FilingMetadata) (tr : List Nat)
    (hc : 1 ≤ c)
    (ha : strptimeOk a = true)
    (har : pyStrLt a DEFAULT_AFTER_DATE_STR = false)
    (hb : strptimeOk b = true)
    (hab : pyStrGt a b = false)
    (hf : SUPPORTED_FILINGS.contains filing = true)
    (hfetch : get_filing_urls_to_download pages filing (pyUpper (pyStrip ticker))
        c.toNat a b amends q fuel = (.ok l, tr)) :
    (get_indexed pages docs resolve today fuel fs dest filing ticker (some c)
        (some (.str a)) (some (.str b)) amends details (.str q)).result
      = .ok ((l.map FilingMetadata.accession_number).toFinset.card)
    ∧ ∀ d₁ d₂ : FilingMetadata, d₁.accession_number = d₂.accession_number →
        get_number_of_unique_filings [d₁, d₂] = 1 := by
  constructor
  · have hclt : ¬ (c < 1) := by omega
    have hfm : filing ∈ SUPPORTED_FILINGS := by simpa using hf
    simp [get_indexed, validate_date_format, ha, har, hb, hab, hfm, hfetch, hclt,
      get_number_of_unique_filings]
  · intro d₁ d₂ h
    simp [get_number_of_unique_filings, h]

/-- Witness for C1 with a one-page oracle emitting two descriptors that
share an accession number under different filenames: the call returns 1. -/
theorem get_indexed_counts_distinct_accessions_witness :
    (get_indexed
        (fun _ => ⟨200, .results [⟨"a:b.htm", ["1"], "8-K"⟩, ⟨"a:c.htm", ["1"], "8-K"⟩] 100⟩)
        (fun _ => none) (fun _ cnt => cnt) "2026-10-12" 2 ⟨[], []⟩ "/d" "8-K" "aapl"
        (some 2) (some (.str "2019-01-01")) (some (.str "2020-01-01"))
        false true (.str "")).result = .ok 1
    ∧ get_number_of_unique_filings
        [⟨"X", "u1", "v1", "f1"⟩, ⟨"X", "u2", "v2", "f2"⟩] = 1 := by
  have h := get_indexed_counts_distinct_accessions
    (fun _ => ⟨200, .results [⟨"a:b.htm", ["1"], "8-K"⟩, ⟨"a:c.htm", ["1"], "8-K"⟩] 100⟩)
    (fun _ => none) (fun _ cnt => cnt) "2026-10-12" 2 ⟨[], []⟩ "/d" "8-K" "aapl"
    2 "2019-01-01" "2020-01-01" false true ""
    [⟨"a", SEC_EDGAR_ARCHIVES_BASE_URL ++ "/1/a/a.txt",
        SEC_EDGAR_ARCHIVES_BASE_URL ++ "/1/a/b.htm",
        FILING_DETAILS_FILENAME_STEM ++ ".html"⟩,
      ⟨"a", SEC_EDGAR_ARCHIVES_BASE_URL ++ "/1/a/a.txt",
        SEC_EDGAR_ARCHIVES_BASE_URL ++ "/1/a/c.htm",
        FILING_DETAILS_FILENAME_STEM ++ ".html"⟩]
    [0] (by decide) (by decide) (by decide) (by decide) (by decide) (by decide)
    (by decide)
  exact ⟨h.1.trans (by rfl), h.2 ⟨"X", "u1", "v1", "f1"⟩ ⟨"X", "u2", "v2", "f2"⟩ rfl⟩

/-- C8 counterexample: with a valid count, `after = "1999-06-01"` and
`before = "1998-01-01"` form a provided pair with `after > before`, yet
the call fails with the out-of-range error, not the range-order error, so
the claim's second part is false as universally stated. -/
theorem date_validation_order_counterexample :
    (get_indexed (fun _ => ⟨200, .results [] 100⟩) (fun _ => none) (fun _ c => c)
        "2026-10-12" 1 ⟨[], []⟩ "/d" "8-K" "AAPL" (some 1)
        (some (.str "1999-06-01")) (some (.str "1998-01-01")) false true (.str "")).result
      = .error .dateOutOfRange
    ∧ pyStrGt "1999-06-01" "1998-01-01" = true
    ∧ GetIndexedError.dateOutOfRange ≠ GetIndexedError.invalidDateRange :=
  ⟨rfl, by decide, by decide⟩

/-- C8 (amended): with a valid count, (i) a provided valid `after` date
strictly before the earliest-supported date fails with the out-of-range
error regardless of the `before` value, with no page request issued;
(ii) a provided valid pair with `after` in the supported range and
`after > before` fails with the range-order error, again before any
network activity. -/
theorem date_validation_before_network
    (pages : Nat → ApiResponse) (docs : String → Option String)
    (resolve : String → String → String) (today : String) (fuel : Nat)
    (fs : FS) (dest filing ticker : String) (c : Int)
    (amends details : Bool) (query : PyValue)
    (hc : 1 ≤ c) :
    (∀ a : String, strptimeOk a = true → pyStrLt a DEFAULT_AFTER_DATE_STR = true →
      ∀ before : Option PyValue,
      (get_indexed pages docs resolve today fuel fs dest filing ticker (some c)
          (some (.str a)) before amends details query).result = .error .dateOutOfRange
      ∧ (get_indexed pages docs resolve today fuel fs dest filing ticker (some c)
          (some (.str a)) before amends details query).page_requests = [])
    ∧ (∀ a b : String, strptimeOk a = true → pyStrLt a DEFAULT_AFTER_DATE_STR = false →
      strptimeOk b = true → pyStrGt a b = true →
      (get_indexed pages docs resolve today fuel fs dest filing ticker (some c)
          (some (.str a)) (some (.str b)) amends details query).result
        = .error .invalidDateRange
      ∧ (get_indexed pages docs resolve today fuel fs dest filing ticker (some c)
          (some (.str a)) (some (.str b)) amends details query).page_requests = []) := by
  have hclt : ¬ (c < 1) := by omega
  constructor
  · intro a ha har before
    constructor <;> simp [get_indexed, validate_date_format, ha, har, hclt]
  · intro a b ha har hb hab
    constructor <;> simp [get_indexed, validate_date_format, ha, har, hb, hab, hclt]

/-- Witness for the amended C8 at concrete dates (including a malformed
`before` alongside the out-of-range `after`). -/
theorem date_validation_before_network_witness :
    ((get_indexed (fun _ => ⟨200, .results [] 100⟩) (fun _ => none) (fun _ c => c)
        "2026-10-12" 1 ⟨[], []⟩ "/d" "8-K" "AAPL" (some 1)
        (some (.str "1999-06-01")) (some (.str "not-a-date")) false true (.str "")).result
      = .error .dateOutOfRange)
    ∧ ((get_indexed (fun _ => ⟨200, .results [] 100⟩) (fun _ => none) (fun _ c => c)
        "2026-10-12" 1 ⟨[], []⟩ "/d" "8-K" "AAPL" (some 1)
        (some (.str "2021-06-01")) (some (.str "2020-01-01")) false true (.str "")).result
      = .error .invalidDateRange) := by
  have h := date_validation_before_network (fun _ => ⟨200, .results [] 100⟩)
    (fun _ => none) (fun _ c => c) "2026-10-12" 1 ⟨[], []⟩ "/d" "8-K" "AAPL" 1
    false true (.str "") (by decide)
  exact ⟨(h.1 "1999-06-01" (by decide) (by decide) (some (.str "not-a-date"))).1,
    (h.2 "2021-06-01" "2020-01-01" (by decide) (by decide) (by decide) (by decide)).1⟩

/-- C10: the destination directory is created before any argument
validation runs, so when the call fails with a validation error the
directory created for a previously non-existent destination remains. -/
theorem destination_created_before_validation
    (pages : Nat → ApiResponse) (docs : String → Option String)
    (resolve : String → String → String) (today : String) (fuel : Nat)
    (fs : FS) (dest filing ticker : String) (count : Option Int)
    (after before : Option PyValue) (amends details : Bool) (query : PyValue)
    (hnew : dest ∉ fs.dirs) (e : GetIndexedError)
    (herr : (get_indexed pages docs resolve today fuel fs dest filing ticker count
        after before amends details query).result = .error e)
    (hval : e.isValidationError = true) :
    dest ∈ (get_indexed pages docs resolve today fuel fs dest filing ticker count
        after before amends details query).fs.dirs := by
  simp only [get_indexed, hnew, if_false]
  repeat' split
  all_goals simp [download_filings_dirs]

/-- Witness for C10: an invalid count (0) fails validation, yet the
destination directory has been created. -/
theorem destination_created_before_validation_witness :
    "/d" ∈ (get_indexed (fun _ => ⟨200, .results [] 100⟩) (fun _ => none)
        (fun _ c => c) "2026-10-12" 1 ⟨[], []⟩ "/d" "8-K" "AAPL" (some 0)
        none none false true (.str "")).fs.dirs :=
  destination_created_before_validation (fun _ => ⟨200, .results [] 100⟩)
    (fun _ => none) (fun _ c => c) "2026-10-12" 1 ⟨[], []⟩ "/d" "8-K" "AAPL"
    (some 0) none none false true (.str "")
    (by simp) .invalidCount rfl rfl

end EdgarFetch
